import Mathlib

/-!
Shallow embedding of `src/weather_mcp_main.py` (the `get_current_weather`
MCP tool).  The Python function reads a provider credential, decodes an
optional base64url `userinfo` header, performs one HTTP GET against the
OpenWeatherMap `/weather` endpoint, and maps the parsed JSON body into a
fixed Chinese-language summary dictionary, converting every failure into a
one-key error dictionary instead of raising.

The embedding models:
  - parsed JSON values (`Json`), with numeric leaves carried as their
    Python `str()` rendering;
  - Python dict/list subscription (`getKey`, `getIndex`) as `Except`,
    standing for `KeyError`/`IndexError`/`TypeError`;
  - `base64.urlsafe_b64decode` / `urlsafe_b64encode` and strict UTF-8
    encoding/decoding;
  - the outcome of the single outbound HTTP call as an explicit input
    (`HttpOutcome`), covering transport errors, any status code, and
    bodies that fail JSON parsing;
  - the whole tool call as a pure function returning a `CallTrace`:
    the returned mapping, the list of outbound requests actually issued,
    and the decoded `userinfo` value (observability channel).
Exception message texts produced by external libraries (`binascii`,
UTF-8 codec, `str(e)`) are abbreviated fixed strings; no property below
depends on their exact wording.
-/

/-- A parsed JSON value as produced by `response.json()`.  A `num` leaf
carries the Python `str()` rendering of the number (the code only ever
interpolates numbers into f-strings, never computes with them). -/
inductive Json where
  | str (s : String)
  | num (render : String)
  | arr (xs : List Json)
  | obj (fields : List (String × Json))
deriving Repr

/-- Python `f"{v}"` / `str(v)` on a JSON value.  Container rendering is
abbreviated; the source never hits it on the documented response shape. -/
def pyStr : Json → String
  | Json.str s => s
  | Json.num r => r
  | Json.arr _ => "[...]"
  | Json.obj _ => "\x7b...\x7d"

/-- Python `d[k]` on a parsed JSON value: `KeyError` when the key is
missing, a type error when the value is not a dict. -/
def getKey (j : Json) (k : String) : Except String Json :=
  match j with
  | Json.obj fields =>
    match fields.lookup k with
    | some v => Except.ok v
    | none => Except.error ("KeyError: " ++ k)
  | _ => Except.error "TypeError: not subscriptable by string"

/-- Python `l[i]` on a parsed JSON value: `IndexError` when out of range,
a type error when the value is not a list. -/
def getIndex (j : Json) (i : Nat) : Except String Json :=
  match j with
  | Json.arr xs =>
    match xs.get? i with
    | some v => Except.ok v
    | none => Except.error "IndexError: list index out of range"
  | _ => Except.error "TypeError: not subscriptable by integer"

/-! ### base64url (`base64.urlsafe_b64encode` / `urlsafe_b64decode`) -/

/-- The base64url alphabet: sextet to character.  `urlsafe_b64encode`
uses `-` and `_` for values 62 and 63. -/
def sextetChar (n : Nat) : Char :=
  if n < 26 then Char.ofNat (65 + n)
  else if n < 52 then Char.ofNat (97 + (n - 26))
  else if n < 62 then Char.ofNat (48 + (n - 52))
  else if n = 62 then '-'
  else '_'

/-- Inverse alphabet lookup.  `urlsafe_b64decode` translates `-`/`_` to
`+`/`/` and then decodes with the standard alphabet, so both pairs are
accepted here. -/
def charSextet (c : Char) : Option Nat :=
  if 65 ≤ c.toNat ∧ c.toNat ≤ 90 then some (c.toNat - 65)
  else if 97 ≤ c.toNat ∧ c.toNat ≤ 122 then some (c.toNat - 97 + 26)
  else if 48 ≤ c.toNat ∧ c.toNat ≤ 57 then some (c.toNat - 48 + 52)
  else if c = '+' ∨ c = '-' then some 62
  else if c = '/' ∨ c = '_' then some 63
  else none

/-- `base64.urlsafe_b64encode` on a byte sequence, producing the padded
character sequence. -/
def b64urlEncode : List Nat → List Char
  | b0 :: b1 :: b2 :: rest =>
    sextetChar (b0 / 4) :: sextetChar (b0 % 4 * 16 + b1 / 16) ::
      sextetChar (b1 % 16 * 4 + b2 / 64) :: sextetChar (b2 % 64) :: b64urlEncode rest
  | [b0, b1] => [sextetChar (b0 / 4), sextetChar (b0 % 4 * 16 + b1 / 16),
      sextetChar (b1 % 16 * 4), '=']
  | [b0] => [sextetChar (b0 / 4), sextetChar (b0 % 4 * 16), '=', '=']
  | [] => []

/-- The decoding loop of `binascii.a2b_base64` (non-strict mode), as
called by `base64.b64decode`: characters outside the alphabet are
skipped; `=` before quad position 2 is skipped, at position 2 or 3 it
counts toward the padding that completes the quad, and a completed
padding ends decoding, discarding the remainder; input ending in a
partial quad (with any data character after a counted `=` resetting the
pad count) is the `binascii.Error` case, returned as `none`.  State:
quad position (0-3), bits held from the previous sextet, pads counted,
and the output bytes in reverse order. -/
def a2bBase64 (quadPos left pads : Nat) (out : List Nat) : List Char → Option (List Nat)
  | [] => if quadPos = 0 then some out.reverse else none
  | c :: rest =>
    if c = '=' then
      if 2 ≤ quadPos then
        if 4 ≤ quadPos + pads + 1 then some out.reverse
        else a2bBase64 quadPos left (pads + 1) out rest
      else a2bBase64 quadPos left pads out rest
    else
      match charSextet c with
      | none => a2bBase64 quadPos left pads out rest
      | some v =>
        if quadPos = 0 then a2bBase64 1 v 0 out rest
        else if quadPos = 1 then a2bBase64 2 (v % 16) 0 ((left * 4 + v / 16) :: out) rest
        else if quadPos = 2 then a2bBase64 3 (v % 4) 0 ((left * 16 + v / 4) :: out) rest
        else a2bBase64 0 0 0 ((left * 64 + v) :: out) rest

/-- `base64.urlsafe_b64decode` applied to a header string: the argument
is first encoded as ASCII (a non-ASCII character raises `ValueError`),
then decoded by `binascii.a2b_base64` (a bad quad raises
`binascii.Error`).  Error messages abbreviate the Python ones. -/
def b64urlDecodeStr (s : String) : Except String (List Nat) :=
  if s.data.all (fun c => c.toNat < 128) then
    match a2bBase64 0 0 0 [] s.data with
    | some bytes => Except.ok bytes
    | none => Except.error "Incorrect padding"
  else Except.error "string argument should contain only ASCII characters"

/-! ### UTF-8 (`bytes.decode("utf-8")` / `str.encode("utf-8")`) -/

/-- Standard UTF-8 encoding of one unicode scalar value. -/
def utf8EncodeChar (c : Nat) : List Nat :=
  if c < 0x80 then [c]
  else if c < 0x800 then [0xC0 + c / 64, 0x80 + c % 64]
  else if c < 0x10000 then [0xE0 + c / 4096, 0x80 + c / 64 % 64, 0x80 + c % 64]
  else [0xF0 + c / 262144, 0x80 + c / 4096 % 64, 0x80 + c / 64 % 64, 0x80 + c % 64]

/-- Python `t.encode("utf-8")` on a character list. -/
def utf8EncodeList : List Char → List Nat
  | [] => []
  | c :: cs => utf8EncodeChar c.toNat ++ utf8EncodeList cs

/-- Python `t.encode("utf-8")`. -/
def utf8Encode (s : String) : List Nat :=
  utf8EncodeList s.data

/-- Strict UTF-8 decoding loop (Python `bytes.decode("utf-8")`): rejects
continuation-byte starts, overlong forms, surrogates and values beyond
U+10FFFF.  The first argument is fuel; each decoded character consumes
one unit and at least one byte, so fuel equal to the byte count (as
supplied by `utf8Decode`) never runs out and the function computes
exactly strict UTF-8 decoding. -/
def utf8DecodeGo : Nat → List Nat → Option (List Char)
  | _, [] => some []
  | 0, _ :: _ => none
  | fuel + 1, b :: rest =>
    if b < 0x80 then (utf8DecodeGo fuel rest).map (fun cs => Char.ofNat b :: cs)
    else if b < 0xC2 then none
    else if b < 0xE0 then
      match rest.get? 0 with
      | some b1 =>
        if 0x80 ≤ b1 ∧ b1 < 0xC0 then
          (utf8DecodeGo fuel (rest.drop 1)).map
            (fun cs => Char.ofNat ((b - 0xC0) * 64 + (b1 - 0x80)) :: cs)
        else none
      | none => none
    else if b < 0xF0 then
      match rest.get? 0, rest.get? 1 with
      | some b1, some b2 =>
        if (0x80 ≤ b1 ∧ b1 < 0xC0) ∧ (0x80 ≤ b2 ∧ b2 < 0xC0) then
          if (b - 0xE0) * 4096 + (b1 - 0x80) * 64 + (b2 - 0x80) < 0x800 ∨
              (0xD800 ≤ (b - 0xE0) * 4096 + (b1 - 0x80) * 64 + (b2 - 0x80) ∧
               (b - 0xE0) * 4096 + (b1 - 0x80) * 64 + (b2 - 0x80) < 0xE000) then none
          else (utf8DecodeGo fuel (rest.drop 2)).map
            (fun cs => Char.ofNat ((b - 0xE0) * 4096 + (b1 - 0x80) * 64 + (b2 - 0x80)) :: cs)
        else none
      | _, _ => none
    else if b < 0xF5 then
      match rest.get? 0, rest.get? 1, rest.get? 2 with
      | some b1, some b2, some b3 =>
        if (0x80 ≤ b1 ∧ b1 < 0xC0) ∧ (0x80 ≤ b2 ∧ b2 < 0xC0) ∧ (0x80 ≤ b3 ∧ b3 < 0xC0) then
          if (b - 0xF0) * 262144 + (b1 - 0x80) * 4096 + (b2 - 0x80) * 64 + (b3 - 0x80) < 0x10000 ∨
              0x110000 ≤ (b - 0xF0) * 262144 + (b1 - 0x80) * 4096 + (b2 - 0x80) * 64 + (b3 - 0x80)
            then none
          else (utf8DecodeGo fuel (rest.drop 3)).map
            (fun cs => Char.ofNat ((b - 0xF0) * 262144 + (b1 - 0x80) * 4096 + (b2 - 0x80) * 64 +
              (b3 - 0x80)) :: cs)
        else none
      | _, _, _ => none
    else none

/-- Python `bytes.decode("utf-8")`. -/
def utf8Decode (bytes : List Nat) : Option String :=
  (utf8DecodeGo bytes.length bytes).map (fun cs => String.mk cs)

/-- Line 57 of the source:
`base64.urlsafe_b64decode(userinfo).decode("utf-8")`, with any of the
three exceptions (`ValueError` for non-ASCII input, `binascii.Error`
for a bad quad, `UnicodeDecodeError`) surfacing as an abbreviated
message for the generic `except Exception` handler. -/
def decodeUserinfo (u : String) : Except String String :=
  match b64urlDecodeStr u with
  | Except.error e => Except.error e
  | Except.ok bytes =>
    match utf8Decode bytes with
    | none => Except.error "utf-8 codec cannot decode"
    | some t => Except.ok t

/-- Base64url-encode a text value (what a caller does to build the
`userinfo` header: `base64.urlsafe_b64encode(t.encode("utf-8"))`). -/
def b64urlEncodeStr (t : String) : String :=
  String.mk (b64urlEncode (utf8Encode t))

/-! ### The tool call itself -/

/-- Line 23 of the source. -/
def WEATHER_BASE_URL : String := "http://api.openweathermap.org/data/2.5"

/-- The single outbound GET of lines 77-78, with its query parameters. -/
structure HttpRequest where
  url : String
  q : String
  appid : String
  units : String
  lang : String
deriving Repr, DecidableEq

/-- Environment-chosen outcome of the outbound HTTP call: a transport
error raised while sending (`httpx.RequestError` and kin), or a response
with a status code and a body that either parses as JSON or does not. -/
inductive HttpOutcome where
  | netError (msg : String)
  | response (status : Nat) (body : Except String Json)

/-- Observable trace of one tool call: the returned mapping, the
outbound requests actually performed (in order), and the decoded
`userinfo` identity value logged for observability (none when the header
was absent, empty, or never reached). -/
structure CallTrace where
  result : List (String × Json)
  requests : List HttpRequest
  decodedUserinfo : Option String

/-- Lines 65-67: `location = city; if country: location = f"{city},{country}"`.
Python truthiness makes both `None` and the empty string fall to the bare
city. -/
def buildLocation (city : String) (country : Option String) : String :=
  match country with
  | some c => if c = "" then city else city ++ "," ++ c
  | none => city

/-- The `'C' if units == 'metric' else 'F'` selector of lines 88-91. -/
def unitLetter (units : String) : String :=
  if units = "metric" then "C" else "F"

/-- The `'m/s' if units == 'metric' else 'mph'` selector of line 94. -/
def windUnitText (units : String) : String :=
  if units = "metric" then "m/s" else "mph"

/-- The field accesses of lines 85-95, in Python evaluation order (the
first failing subscription raises and aborts the dict literal). -/
def extractFields (data : Json) :
    Except String (Json × Json × Json × Json × Json × Json × Json × Json × Json × Json × Json) := do
  let name ← getKey data "name"
  let sys ← getKey data "sys"
  let ctry ← getKey sys "country"
  let weather ← getKey data "weather"
  let w0 ← getIndex weather 0
  let desc ← getKey w0 "description"
  let main ← getKey data "main"
  let temp ← getKey main "temp"
  let feels ← getKey main "feels_like"
  let tmin ← getKey main "temp_min"
  let tmax ← getKey main "temp_max"
  let hum ← getKey main "humidity"
  let pres ← getKey main "pressure"
  let wind ← getKey data "wind"
  let speed ← getKey wind "speed"
  let clouds ← getKey data "clouds"
  let call ← getKey clouds "all"
  return (name, ctry, desc, temp, feels, tmin, tmax, hum, pres, speed, call)

/-- The `weather_info` dict literal of lines 84-96, given the eleven
extracted JSON values.  Raw JSON values for `城市`/`国家`/`天气状况`;
f-string formatting for the rest. -/
def summaryList (name ctry desc temp feels tmin tmax hum pres speed clouds : Json)
    (units : String) : List (String × Json) :=
  [("城市", name),
   ("国家", ctry),
   ("天气状况", desc),
   ("当前温度", Json.str (pyStr temp ++ "°" ++ unitLetter units)),
   ("体感温度", Json.str (pyStr feels ++ "°" ++ unitLetter units)),
   ("最低温度", Json.str (pyStr tmin ++ "°" ++ unitLetter units)),
   ("最高温度", Json.str (pyStr tmax ++ "°" ++ unitLetter units)),
   ("湿度", Json.str (pyStr hum ++ "%")),
   ("气压", Json.str (pyStr pres ++ " hPa")),
   ("风速", Json.str (pyStr speed ++ " " ++ windUnitText units)),
   ("云量", Json.str (pyStr clouds ++ "%"))]

/-- Lines 84-98: extract the fields and build the `weather_info` dict. -/
def formatWeather (data : Json) (units : String) : Except String (List (String × Json)) :=
  match extractFields data with
  | Except.error e => Except.error e
  | Except.ok (name, ctry, desc, temp, feels, tmin, tmax, hum, pres, speed, clouds) =>
    Except.ok (summaryList name ctry desc temp feels tmin tmax hum pres speed clouds units)

/-- A `formatWeather` failure (a missing key or a non-subscriptable
value, Python `KeyError`/`IndexError`/`TypeError`) is caught by the
generic `except Exception` arm of line 108. -/
def formatOrError (r : Except String (List (String × Json))) : List (String × Json) :=
  match r with
  | Except.ok info => info
  | Except.error e => [("错误", Json.str ("获取天气信息失败: " ++ e))]

/-- Lines 81-98 for a 2xx response: `response.json()` (a parse failure
falls to the generic handler) followed by the field mapping. -/
def parseAndFormat (units : String) (body : Except String Json) : List (String × Json) :=
  match body with
  | Except.error e => [("错误", Json.str ("获取天气信息失败: " ++ e))]
  | Except.ok data => formatOrError (formatWeather data units)

/-- Lines 79-109 from `raise_for_status` on: 2xx proceeds to JSON
parsing and field mapping; `httpx.HTTPStatusError` is classified by the
first `except` arm (404 / 401 / other); every other exception becomes
the generic `获取天气信息失败` error. -/
def handleResponse (city units : String) (outcome : HttpOutcome) : List (String × Json) :=
  match outcome with
  | HttpOutcome.netError msg => [("错误", Json.str ("获取天气信息失败: " ++ msg))]
  | HttpOutcome.response status body =>
    if 200 ≤ status ∧ status ≤ 299 then parseAndFormat units body
    else if status = 404 then [("错误", Json.str ("未找到城市: " ++ city))]
    else if status = 401 then [("错误", Json.str "API密钥无效，请检查 WEATHER_API_KEY 环境变量")]
    else [("错误", Json.str ("API请求失败: " ++ toString status))]

/-- Lines 64-98 once the identity step has passed: build the query,
perform the single GET, and hand the outcome to `handleResponse`. -/
def runLookup (apiKey city : String) (country : Option String) (units : String)
    (outcome : HttpOutcome) (dec : Option String) : CallTrace :=
  { result := handleResponse city units outcome,
    requests := [{ url := WEATHER_BASE_URL ++ "/weather",
                   q := buildLocation city country,
                   appid := apiKey,
                   units := units,
                   lang := "zh_cn" }],
    decodedUserinfo := dec }

/-- The `try` block, lines 49-98: read `headers.get("userinfo")`; a
truthy value is base64url/UTF-8 decoded (a decode exception falls to the
generic handler before any network activity); then the lookup proper
runs. -/
def tryBody (apiKey : String) (headers : List (String × String)) (outcome : HttpOutcome)
    (city : String) (country : Option String) (units : String) : CallTrace :=
  match headers.lookup "userinfo" with
  | some u =>
    if u = "" then runLookup apiKey city country units outcome none
    else
      match decodeUserinfo u with
      | Except.ok t => runLookup apiKey city country units outcome (some t)
      | Except.error e =>
        { result := [("错误", Json.str ("获取天气信息失败: " ++ e))],
          requests := [],
          decodedUserinfo := none }
  | none => runLookup apiKey city country units outcome none

/-- The whole tool function `get_current_weather`, lines 30-109.  The
module-global `WEATHER_API_KEY` is passed as `apiKey` (the spec's
injected-configuration model); the per-request header collection and the
environment-determined outcome of the single HTTP call are explicit
inputs. -/
def get_current_weather (apiKey : String) (headers : List (String × String))
    (outcome : HttpOutcome) (city : String) (country : Option String) (units : String) :
    CallTrace :=
  if apiKey = "" then
    { result := [("错误", Json.str "请设置环境变量 WEATHER_API_KEY")],
      requests := [],
      decodedUserinfo := none }
  else tryBody apiKey headers outcome city country units

/-! ### Spec-side vocabulary -/

/-- The eleven documented `WeatherSummary` keys, in output order. -/
def weatherKeys : List String :=
  ["城市", "国家", "天气状况", "当前温度", "体感温度", "最低温度", "最高温度",
   "湿度", "气压", "风速", "云量"]

/-- The spec's `ErrorResult`: a one-key mapping carrying a message. -/
def isErrorResult (r : List (String × Json)) : Prop :=
  ∃ m, r = [("错误", Json.str m)]

/-- The spec's `WeatherSummary` shape: exactly the eleven documented
keys, in order. -/
def isWeatherSummary (r : List (String × Json)) : Prop :=
  r.map Prod.fst = weatherKeys

/-- The header collection's `userinfo` entry, when present and truthy,
decodes successfully (the only way the identity step can abort a call). -/
def userinfoOk (headers : List (String × String)) : Prop :=
  ∀ u, headers.lookup "userinfo" = some u → u ≠ "" → ∃ t, decodeUserinfo u = Except.ok t

/-- A provider body of the documented success shape: every documented
key present, the three textual fields non-empty strings, the numeric
fields numbers (whose Python `str()` rendering is never empty). -/
def WellFormedBody (data : Json) : Prop :=
  ∃ name ctry desc t fl tn tx hum pres spd cld,
    extractFields data = Except.ok
      (Json.str name, Json.str ctry, Json.str desc, Json.num t, Json.num fl, Json.num tn,
       Json.num tx, Json.num hum, Json.num pres, Json.num spd, Json.num cld) ∧
    name ≠ "" ∧ ctry ≠ "" ∧ desc ≠ "" ∧ t ≠ "" ∧ fl ≠ "" ∧ tn ≠ "" ∧ tx ≠ "" ∧
    hum ≠ "" ∧ pres ≠ "" ∧ spd ≠ "" ∧ cld ≠ ""

/-- The four unit-suffixed temperature keys. -/
def tempKeys : List String := ["当前温度", "体感温度", "最低温度", "最高温度"]

/-- Every temperature field present in `r` is a text value ending in the
given unit suffix. -/
def tempsHaveSuffix (r : List (String × Json)) (sfx : String) : Prop :=
  ∀ k ∈ tempKeys, ∀ v, r.lookup k = some v → ∃ s, v = Json.str (s ++ sfx)

/-- The wind-speed field present in `r` is a text value ending in a
space and the given unit text. -/
def windHasUnit (r : List (String × Json)) (u : String) : Prop :=
  ∀ v, r.lookup "风速" = some v → ∃ s, v = Json.str (s ++ " " ++ u)

/-- The spec §8 example body for the request `shanghai, CN, metric`. -/
def sampleBody : Json :=
  Json.obj
    [("name", Json.str "Shanghai"),
     ("sys", Json.obj [("country", Json.str "CN")]),
     ("weather", Json.arr [Json.obj [("description", Json.str "晴")]]),
     ("main", Json.obj
       [("temp", Json.num "20"), ("feels_like", Json.num "19"),
        ("temp_min", Json.num "18"), ("temp_max", Json.num "22"),
        ("humidity", Json.num "50"), ("pressure", Json.num "1012")]),
     ("wind", Json.obj [("speed", Json.num "3")]),
     ("clouds", Json.obj [("all", Json.num "10")])]

/-- A successful 200 outcome carrying the sample body. -/
def sampleOutcome : HttpOutcome :=
  HttpOutcome.response 200 (Except.ok sampleBody)

theorem charSextet_sextetChar : ∀ n < 64, charSextet (sextetChar n) = some n := by decide

theorem sextetChar_ne_pad : ∀ n < 64, sextetChar n ≠ '=' := by decide

theorem sextetChar_ascii : ∀ n < 64, (sextetChar n).toNat < 128 := by decide

theorem mem_b64urlEncode : ∀ (bs : List Nat), (∀ b ∈ bs, b < 256) → ∀ c ∈ b64urlEncode bs,
    c.toNat < 128 := by
  intro bs
  induction bs using b64urlEncode.induct with
  | case1 b0 b1 b2 rest ih =>
    intro hb c hc
    have h0 : b0 < 256 := hb b0 (by simp)
    have h1 : b1 < 256 := hb b1 (by simp)
    have h2 : b2 < 256 := hb b2 (by simp)
    simp only [b64urlEncode, List.mem_cons] at hc
    rcases hc with rfl | rfl | rfl | rfl | hc
    · exact sextetChar_ascii _ (by omega)
    · exact sextetChar_ascii _ (by omega)
    · exact sextetChar_ascii _ (by omega)
    · exact sextetChar_ascii _ (by omega)
    · exact ih (fun b hb2 => hb b (by simp [hb2])) c hc
  | case2 b0 b1 =>
    intro hb c hc
    have h0 : b0 < 256 := hb b0 (by simp)
    have h1 : b1 < 256 := hb b1 (by simp)
    simp only [b64urlEncode, List.mem_cons] at hc
    rcases hc with rfl | rfl | rfl | rfl | hc
    · exact sextetChar_ascii _ (by omega)
    · exact sextetChar_ascii _ (by omega)
    · exact sextetChar_ascii _ (by omega)
    · decide
    · simp at hc
  | case3 b0 =>
    intro hb c hc
    have h0 : b0 < 256 := hb b0 (by simp)
    simp only [b64urlEncode, List.mem_cons] at hc
    rcases hc with rfl | rfl | rfl | rfl | hc
    · exact sextetChar_ascii _ (by omega)
    · exact sextetChar_ascii _ (by omega)
    · decide
    · decide
    · simp at hc
  | case4 =>
    intro _ c hc
    simp [b64urlEncode] at hc

theorem a2b_nil0 (left pads : Nat) (out : List Nat) :
    a2bBase64 0 left pads out [] = some out.reverse := rfl

theorem a2b_data0 (left pads : Nat) (out : List Nat) (v : Nat) (hv : v < 64) (rest : List Char) :
    a2bBase64 0 left pads out (sextetChar v :: rest) = a2bBase64 1 v 0 out rest := by
  simp only [a2bBase64, if_neg (sextetChar_ne_pad v hv), charSextet_sextetChar v hv, if_pos rfl]
  simp

theorem a2b_data1 (left pads : Nat) (out : List Nat) (v : Nat) (hv : v < 64) (rest : List Char) :
    a2bBase64 1 left pads out (sextetChar v :: rest) =
      a2bBase64 2 (v % 16) 0 ((left * 4 + v / 16) :: out) rest := by
  simp only [a2bBase64, if_neg (sextetChar_ne_pad v hv), charSextet_sextetChar v hv,
    if_neg (by decide : ¬ (1 : Nat) = 0), if_pos rfl]
  simp

theorem a2b_data2 (left pads : Nat) (out : List Nat) (v : Nat) (hv : v < 64) (rest : List Char) :
    a2bBase64 2 left pads out (sextetChar v :: rest) =
      a2bBase64 3 (v % 4) 0 ((left * 16 + v / 4) :: out) rest := by
  simp only [a2bBase64, if_neg (sextetChar_ne_pad v hv), charSextet_sextetChar v hv,
    if_neg (by decide : ¬ (2 : Nat) = 0), if_neg (by decide : ¬ (2 : Nat) = 1), if_pos rfl]
  simp

theorem a2b_data3 (left pads : Nat) (out : List Nat) (v : Nat) (hv : v < 64) (rest : List Char) :
    a2bBase64 3 left pads out (sextetChar v :: rest) =
      a2bBase64 0 0 0 ((left * 64 + v) :: out) rest := by
  simp only [a2bBase64, if_neg (sextetChar_ne_pad v hv), charSextet_sextetChar v hv,
    if_neg (by decide : ¬ (3 : Nat) = 0), if_neg (by decide : ¬ (3 : Nat) = 1),
    if_neg (by decide : ¬ (3 : Nat) = 2)]

theorem a2b_pad2 (left : Nat) (out : List Nat) (rest : List Char) :
    a2bBase64 2 left 0 out ('=' :: rest) = a2bBase64 2 left 1 out rest := rfl

theorem a2b_pad2_stop (left : Nat) (out : List Nat) (rest : List Char) :
    a2bBase64 2 left 1 out ('=' :: rest) = some out.reverse := rfl

theorem a2b_pad3_stop (left : Nat) (out : List Nat) (rest : List Char) :
    a2bBase64 3 left 0 out ('=' :: rest) = some out.reverse := rfl

theorem a2b_b64urlEncode : ∀ (bs : List Nat), (∀ b ∈ bs, b < 256) → ∀ out : List Nat,
    a2bBase64 0 0 0 out (b64urlEncode bs) = some (out.reverse ++ bs) := by
  intro bs
  induction bs using b64urlEncode.induct with
  | case1 b0 b1 b2 rest ih =>
    intro hb out
    have h0 : b0 < 256 := hb b0 (by simp)
    have h1 : b1 < 256 := hb b1 (by simp)
    have h2 : b2 < 256 := hb b2 (by simp)
    have r0 : b0 / 4 * 4 + (b0 % 4 * 16 + b1 / 16) / 16 = b0 := by omega
    rw [b64urlEncode, a2b_data0 _ _ _ _ (by omega), a2b_data1 _ _ _ _ (by omega),
      a2b_data2 _ _ _ _ (by omega), a2b_data3 _ _ _ _ (by omega),
      ih (fun b hb2 => hb b (by simp [hb2]))]
    rw [r0]
    rw [show (b0 % 4 * 16 + b1 / 16) % 16 * 16 + (b1 % 16 * 4 + b2 / 64) / 4 = b1 from by omega]
    rw [show (b1 % 16 * 4 + b2 / 64) % 4 * 64 + b2 % 64 = b2 from by omega]
    simp
  | case2 b0 b1 =>
    intro hb out
    have h0 : b0 < 256 := hb b0 (by simp)
    have h1 : b1 < 256 := hb b1 (by simp)
    rw [b64urlEncode, a2b_data0 _ _ _ _ (by omega), a2b_data1 _ _ _ _ (by omega),
      a2b_data2 _ _ _ _ (by omega), a2b_pad3_stop]
    rw [show b0 / 4 * 4 + (b0 % 4 * 16 + b1 / 16) / 16 = b0 from by omega]
    rw [show (b0 % 4 * 16 + b1 / 16) % 16 * 16 + b1 % 16 * 4 / 4 = b1 from by omega]
    simp
  | case3 b0 =>
    intro hb out
    have h0 : b0 < 256 := hb b0 (by simp)
    rw [b64urlEncode, a2b_data0 _ _ _ _ (by omega), a2b_data1 _ _ _ _ (by omega), a2b_pad2,
      a2b_pad2_stop]
    rw [show b0 / 4 * 4 + b0 % 4 * 16 / 16 = b0 from by omega]
    simp
  | case4 =>
    intro _ out
    rw [b64urlEncode, a2b_nil0]
    simp

theorem char_valid_nat (c : Char) : c.toNat < 0xD800 ∨ (0xDFFF < c.toNat ∧ c.toNat < 0x110000) :=
  c.valid

theorem utf8EncodeChar_lt (c : Char) : ∀ b ∈ utf8EncodeChar c.toNat, b < 256 := by
  have hv := char_valid_nat c
  unfold utf8EncodeChar
  split_ifs with h1 h2 h3 <;> intro b hb <;> simp only [List.mem_cons, List.not_mem_nil, or_false] at hb
  · omega
  · rcases hb with rfl | rfl <;> omega
  · rcases hb with rfl | rfl | rfl <;> omega
  · rcases hb with rfl | rfl | rfl | rfl <;> omega

theorem utf8DecodeGo_encodeChar (c : Char) (fuel : Nat) (rest : List Nat) :
    utf8DecodeGo (fuel + 1) (utf8EncodeChar c.toNat ++ rest) =
      (utf8DecodeGo fuel rest).map (fun cs => c :: cs) := by
  have hv := char_valid_nat c
  by_cases h1 : c.toNat < 0x80
  · simp only [utf8EncodeChar, if_pos h1, List.cons_append, List.nil_append]
    simp only [utf8DecodeGo, if_pos h1, Char.ofNat_toNat]
  · by_cases h2 : c.toNat < 0x800
    · simp only [utf8EncodeChar, if_neg h1, if_pos h2, List.cons_append, List.nil_append]
      have gc : (0xC0 + c.toNat / 64 - 0xC0) * 64 + (0x80 + c.toNat % 64 - 0x80) = c.toNat := by
        omega
      simp only [utf8DecodeGo, if_neg (by omega : ¬(0xC0 + c.toNat / 64 < 0x80)),
        if_neg (by omega : ¬(0xC0 + c.toNat / 64 < 0xC2)),
        if_pos (by omega : 0xC0 + c.toNat / 64 < 0xE0), List.get?_cons_zero,
        if_pos (by omega : 0x80 ≤ 0x80 + c.toNat % 64 ∧ 0x80 + c.toNat % 64 < 0xC0),
        List.drop_succ_cons, List.drop_zero]
      rw [gc, Char.ofNat_toNat]
    · by_cases h3 : c.toNat < 0x10000
      · simp only [utf8EncodeChar, if_neg h1, if_neg h2, if_pos h3, List.cons_append,
          List.nil_append]
        have gc : (0xE0 + c.toNat / 4096 - 0xE0) * 4096 + (0x80 + c.toNat / 64 % 64 - 0x80) * 64 +
            (0x80 + c.toNat % 64 - 0x80) = c.toNat := by omega
        simp only [utf8DecodeGo, if_neg (by omega : ¬(0xE0 + c.toNat / 4096 < 0x80)),
          if_neg (by omega : ¬(0xE0 + c.toNat / 4096 < 0xC2)),
          if_neg (by omega : ¬(0xE0 + c.toNat / 4096 < 0xE0)),
          if_pos (by omega : 0xE0 + c.toNat / 4096 < 0xF0), List.get?_cons_zero,
          List.get?_cons_succ, List.drop_succ_cons, List.drop_zero]
        rw [if_pos (by omega), if_neg (by rw [gc]; omega), gc, Char.ofNat_toNat]
      · simp only [utf8EncodeChar, if_neg h1, if_neg h2, if_neg h3, List.cons_append,
          List.nil_append]
        have gc : (0xF0 + c.toNat / 262144 - 0xF0) * 262144 +
            (0x80 + c.toNat / 4096 % 64 - 0x80) * 4096 + (0x80 + c.toNat / 64 % 64 - 0x80) * 64 +
            (0x80 + c.toNat % 64 - 0x80) = c.toNat := by omega
        simp only [utf8DecodeGo, if_neg (by omega : ¬(0xF0 + c.toNat / 262144 < 0x80)),
          if_neg (by omega : ¬(0xF0 + c.toNat / 262144 < 0xC2)),
          if_neg (by omega : ¬(0xF0 + c.toNat / 262144 < 0xE0)),
          if_neg (by omega : ¬(0xF0 + c.toNat / 262144 < 0xF0)),
          if_pos (by omega : 0xF0 + c.toNat / 262144 < 0xF5), List.get?_cons_zero,
          List.get?_cons_succ, List.drop_succ_cons, List.drop_zero]
        rw [if_pos (by omega), if_neg (by rw [gc]; omega), gc, Char.ofNat_toNat]

theorem utf8DecodeGo_encodeList : ∀ (l : List Char) (n : Nat) (rest : List Nat),
    utf8DecodeGo (n + l.length) (utf8EncodeList l ++ rest) =
      (utf8DecodeGo n rest).map (fun cs => l ++ cs) := by
  intro l
  induction l with
  | nil =>
    intro n rest
    simp only [utf8EncodeList, List.nil_append, List.length_nil, Nat.add_zero]
    cases utf8DecodeGo n rest <;> rfl
  | cons c cs ih =>
    intro n rest
    have hlen : n + (c :: cs).length = (n + cs.length) + 1 := by
      simp [List.length_cons]
      omega
    rw [hlen]
    simp only [utf8EncodeList, List.append_assoc]
    rw [utf8DecodeGo_encodeChar c (n + cs.length) (utf8EncodeList cs ++ rest), ih n rest]
    cases utf8DecodeGo n rest <;> rfl

theorem length_le_utf8EncodeList : ∀ l : List Char, l.length ≤ (utf8EncodeList l).length := by
  intro l
  induction l with
  | nil => simp [utf8EncodeList]
  | cons c cs ih =>
    have : 1 ≤ (utf8EncodeChar c.toNat).length := by
      unfold utf8EncodeChar
      split_ifs <;> simp
    simp only [utf8EncodeList, List.length_append, List.length_cons]
    omega

theorem utf8_roundtrip (s : String) : utf8Decode (utf8Encode s) = some s := by
  obtain ⟨l⟩ := s
  have hle := length_le_utf8EncodeList l
  unfold utf8Decode utf8Encode
  rw [show (String.mk l).data = l from rfl]
  have hsplit : (utf8EncodeList l).length = ((utf8EncodeList l).length - l.length) + l.length := by
    omega
  have key := utf8DecodeGo_encodeList l ((utf8EncodeList l).length - l.length) []
  rw [List.append_nil] at key
  rw [hsplit, key]
  simp [utf8DecodeGo]

theorem utf8EncodeList_lt : ∀ l : List Char, ∀ b ∈ utf8EncodeList l, b < 256 := by
  intro l
  induction l with
  | nil => simp [utf8EncodeList]
  | cons c cs ih =>
    intro b hb
    simp only [utf8EncodeList, List.mem_append] at hb
    rcases hb with hb | hb
    · exact utf8EncodeChar_lt c b hb
    · exact ih b hb

theorem utf8Encode_lt (t : String) : ∀ b ∈ utf8Encode t, b < 256 :=
  utf8EncodeList_lt t.data

theorem decodeUserinfo_encode (t : String) :
    decodeUserinfo (b64urlEncodeStr t) = Except.ok t := by
  unfold decodeUserinfo b64urlDecodeStr b64urlEncodeStr
  rw [show (String.mk (b64urlEncode (utf8Encode t))).data = b64urlEncode (utf8Encode t) from rfl]
  have hascii : (b64urlEncode (utf8Encode t)).all (fun c => c.toNat < 128) = true := by
    rw [List.all_eq_true]
    intro c hc
    simp only [decide_eq_true_eq]
    exact mem_b64urlEncode _ (utf8Encode_lt t) c hc
  rw [if_pos hascii, a2b_b64urlEncode _ (utf8Encode_lt t) []]
  simp [utf8_roundtrip]

theorem utf8EncodeList_ne_nil (l : List Char) (h : l ≠ []) : utf8EncodeList l ≠ [] := by
  cases l with
  | nil => exact absurd rfl h
  | cons c cs =>
    simp only [utf8EncodeList]
    intro happ
    rcases List.append_eq_nil.mp happ with ⟨h1, _⟩
    have : 1 ≤ (utf8EncodeChar c.toNat).length := by
      unfold utf8EncodeChar
      split_ifs <;> simp
    rw [h1] at this
    simp at this

theorem b64urlEncode_ne_nil (bs : List Nat) (h : bs ≠ []) : b64urlEncode bs ≠ [] := by
  rcases bs with _ | ⟨b0, _ | ⟨b1, _ | ⟨b2, rest⟩⟩⟩
  · exact absurd rfl h
  · simp [b64urlEncode]
  · simp [b64urlEncode]
  · simp [b64urlEncode]

theorem b64urlEncodeStr_ne_empty (t : String) (h : t ≠ "") : b64urlEncodeStr t ≠ "" := by
  unfold b64urlEncodeStr
  intro he
  have hdata : b64urlEncode (utf8Encode t) = [] := congrArg String.data he
  have htd : t.data ≠ [] := by
    intro hd
    apply h
    obtain ⟨l⟩ := t
    simp only at hd
    rw [hd]
  exact b64urlEncode_ne_nil _ (utf8EncodeList_ne_nil t.data htd) hdata

theorem str_append_ne_left (a b : String) (h : a ≠ "") : a ++ b ≠ "" := by
  intro he
  apply h
  have hd : (a ++ b).data = [] := congrArg String.data he
  rw [String.data_append] at hd
  rcases List.append_eq_nil.mp hd with ⟨h1, _⟩
  obtain ⟨l⟩ := a
  simp only at h1
  rw [h1]

theorem formatWeather_ok_shape (data : Json) (units : String) (info : List (String × Json))
    (h : formatWeather data units = Except.ok info) :
    ∃ name ctry desc temp feels tmin tmax hum pres speed clouds,
      extractFields data =
        Except.ok (name, ctry, desc, temp, feels, tmin, tmax, hum, pres, speed, clouds) ∧
      info = summaryList name ctry desc temp feels tmin tmax hum pres speed clouds units := by
  unfold formatWeather at h
  cases he : extractFields data with
  | error e => rw [he] at h; cases h
  | ok val =>
    rw [he] at h
    obtain ⟨name, ctry, desc, temp, feels, tmin, tmax, hum, pres, speed, clouds⟩ := val
    simp only [Except.ok.injEq] at h
    exact ⟨name, ctry, desc, temp, feels, tmin, tmax, hum, pres, speed, clouds, rfl, h.symm⟩

theorem handleResponse_cases (city units : String) (outcome : HttpOutcome) :
    (∃ m, handleResponse city units outcome = [("错误", Json.str m)]) ∨
    (∃ data info, formatWeather data units = Except.ok info ∧
      handleResponse city units outcome = info) := by
  cases outcome with
  | netError msg => exact Or.inl ⟨"获取天气信息失败: " ++ msg, rfl⟩
  | response status body =>
    simp only [handleResponse]
    by_cases h2xx : 200 ≤ status ∧ status ≤ 299
    · rw [if_pos h2xx]
      cases body with
      | error e => exact Or.inl ⟨"获取天气信息失败: " ++ e, rfl⟩
      | ok data =>
        simp only [parseAndFormat]
        cases hf : formatWeather data units with
        | ok info => exact Or.inr ⟨data, info, hf, rfl⟩
        | error e => exact Or.inl ⟨"获取天气信息失败: " ++ e, rfl⟩
    · rw [if_neg h2xx]
      by_cases h404 : status = 404
      · rw [if_pos h404]
        exact Or.inl ⟨"未找到城市: " ++ city, rfl⟩
      · rw [if_neg h404]
        by_cases h401 : status = 401
        · rw [if_pos h401]
          exact Or.inl ⟨"API密钥无效，请检查 WEATHER_API_KEY 环境变量", rfl⟩
        · rw [if_neg h401]
          exact Or.inl ⟨"API请求失败: " ++ toString status, rfl⟩

theorem tryBody_ok (apiKey : String) (headers : List (String × String)) (outcome : HttpOutcome)
    (city : String) (country : Option String) (units : String) (hok : userinfoOk headers) :
    ∃ d, tryBody apiKey headers outcome city country units =
      runLookup apiKey city country units outcome d := by
  unfold tryBody
  cases hl : headers.lookup "userinfo" with
  | none => exact ⟨none, rfl⟩
  | some u =>
    simp only []
    by_cases hu : u = ""
    · rw [if_pos hu]
      exact ⟨none, rfl⟩
    · rw [if_neg hu]
      obtain ⟨t, ht⟩ := hok u hl hu
      rw [ht]
      exact ⟨some t, rfl⟩

theorem get_ok (apiKey : String) (headers : List (String × String)) (outcome : HttpOutcome)
    (city : String) (country : Option String) (units : String) (h : apiKey ≠ "")
    (hok : userinfoOk headers) :
    ∃ d, get_current_weather apiKey headers outcome city country units =
      runLookup apiKey city country units outcome d := by
  unfold get_current_weather
  rw [if_neg h]
  exact tryBody_ok apiKey headers outcome city country units hok

theorem result_of_ok (apiKey : String) (headers : List (String × String)) (outcome : HttpOutcome)
    (city : String) (country : Option String) (units : String) (h : apiKey ≠ "")
    (hok : userinfoOk headers) :
    (get_current_weather apiKey headers outcome city country units).result =
      handleResponse city units outcome := by
  obtain ⟨d, hd⟩ := get_ok apiKey headers outcome city country units h hok
  rw [hd]
  rfl

theorem requests_of_ok (apiKey : String) (headers : List (String × String))
    (outcome : HttpOutcome) (city : String) (country : Option String) (units : String)
    (h : apiKey ≠ "") (hok : userinfoOk headers) :
    (get_current_weather apiKey headers outcome city country units).requests =
      [{ url := WEATHER_BASE_URL ++ "/weather", q := buildLocation city country,
         appid := apiKey, units := units, lang := "zh_cn" }] := by
  obtain ⟨d, hd⟩ := get_ok apiKey headers outcome city country units h hok
  rw [hd]
  rfl

theorem result_cases (apiKey : String) (headers : List (String × String)) (outcome : HttpOutcome)
    (city : String) (country : Option String) (units : String) :
    (∃ m, (get_current_weather apiKey headers outcome city country units).result =
      [("错误", Json.str m)]) ∨
    (∃ data info, formatWeather data units = Except.ok info ∧
      (get_current_weather apiKey headers outcome city country units).result = info) := by
  unfold get_current_weather
  by_cases ha : apiKey = ""
  · rw [if_pos ha]
    exact Or.inl ⟨"请设置环境变量 WEATHER_API_KEY", rfl⟩
  · rw [if_neg ha]
    unfold tryBody
    cases hl : headers.lookup "userinfo" with
    | none => exact handleResponse_cases city units outcome
    | some u =>
      simp only []
      by_cases hu : u = ""
      · rw [if_pos hu]
        exact handleResponse_cases city units outcome
      · rw [if_neg hu]
        cases hd : decodeUserinfo u with
        | ok t => exact handleResponse_cases city units outcome
        | error e => exact Or.inl ⟨"获取天气信息失败: " ++ e, rfl⟩

theorem lookup_summary_temp (name ctry desc temp feels tmin tmax hum pres speed clouds : Json)
    (units : String) :
    List.lookup "当前温度" (summaryList name ctry desc temp feels tmin tmax hum pres speed clouds
      units) = some (Json.str (pyStr temp ++ "°" ++ unitLetter units)) := rfl

theorem lookup_summary_feels (name ctry desc temp feels tmin tmax hum pres speed clouds : Json)
    (units : String) :
    List.lookup "体感温度" (summaryList name ctry desc temp feels tmin tmax hum pres speed clouds
      units) = some (Json.str (pyStr feels ++ "°" ++ unitLetter units)) := rfl

theorem lookup_summary_tmin (name ctry desc temp feels tmin tmax hum pres speed clouds : Json)
    (units : String) :
    List.lookup "最低温度" (summaryList name ctry desc temp feels tmin tmax hum pres speed clouds
      units) = some (Json.str (pyStr tmin ++ "°" ++ unitLetter units)) := rfl

theorem lookup_summary_tmax (name ctry desc temp feels tmin tmax hum pres speed clouds : Json)
    (units : String) :
    List.lookup "最高温度" (summaryList name ctry desc temp feels tmin tmax hum pres speed clouds
      units) = some (Json.str (pyStr tmax ++ "°" ++ unitLetter units)) := rfl

theorem lookup_summary_wind (name ctry desc temp feels tmin tmax hum pres speed clouds : Json)
    (units : String) :
    List.lookup "风速" (summaryList name ctry desc temp feels tmin tmax hum pres speed clouds
      units) = some (Json.str (pyStr speed ++ " " ++ windUnitText units)) := rfl

theorem temps_wind_shape (apiKey : String) (headers : List (String × String))
    (outcome : HttpOutcome) (city : String) (country : Option String) (units : String) :
    tempsHaveSuffix (get_current_weather apiKey headers outcome city country units).result
      ("°" ++ unitLetter units) ∧
    windHasUnit (get_current_weather apiKey headers outcome city country units).result
      (windUnitText units) := by
  rcases result_cases apiKey headers outcome city country units with ⟨m, hm⟩ | ⟨d0, info, hf, hr⟩
  · constructor
    · intro k hk v hv
      rw [hm] at hv
      exfalso
      simp only [tempKeys, List.mem_cons, List.not_mem_nil, or_false] at hk
      rcases hk with rfl | rfl | rfl | rfl <;>
        exact Option.noConfusion ((show (none : Option Json) = some v from hv))
    · intro v hv
      rw [hm] at hv
      exact Option.noConfusion ((show (none : Option Json) = some v from hv))
  · obtain ⟨name, ctry, desc, temp, feels, tmin, tmax, hum, pres, speed, clouds, hex, hinfo⟩ :=
      formatWeather_ok_shape d0 units info hf
    rw [hinfo] at hr
    constructor
    · intro k hk v hv
      rw [hr] at hv
      simp only [tempKeys, List.mem_cons, List.not_mem_nil, or_false] at hk
      rcases hk with rfl | rfl | rfl | rfl
      · rw [lookup_summary_temp] at hv
        refine ⟨pyStr temp, ?_⟩
        rw [← Option.some_inj.mp hv, String.append_assoc]
      · rw [lookup_summary_feels] at hv
        refine ⟨pyStr feels, ?_⟩
        rw [← Option.some_inj.mp hv, String.append_assoc]
      · rw [lookup_summary_tmin] at hv
        refine ⟨pyStr tmin, ?_⟩
        rw [← Option.some_inj.mp hv, String.append_assoc]
      · rw [lookup_summary_tmax] at hv
        refine ⟨pyStr tmax, ?_⟩
        rw [← Option.some_inj.mp hv, String.append_assoc]
    · intro v hv
      rw [hr] at hv
      rw [lookup_summary_wind] at hv
      exact ⟨pyStr speed, (Option.some_inj.mp hv).symm⟩

/-- C1: for every input (city, country, units) and every header
collection, an empty/unset provider credential makes `lookup` return the
credential-missing `ErrorResult` `[("错误", "请设置环境变量 WEATHER_API_KEY")]`
and perform zero outbound network requests. -/
theorem claim_C1 (headers : List (String × String)) (outcome : HttpOutcome) (city : String)
    (country : Option String) (units : String) :
    (get_current_weather "" headers outcome city country units).result =
      [("错误", Json.str "请设置环境变量 WEATHER_API_KEY")] ∧
    (get_current_weather "" headers outcome city country units).requests = [] := by
  constructor <;> rfl

/-- C2: for every input, header collection and outcome of the outbound
call, `lookup` returns a mapping that is either a one-key `ErrorResult`
or a `WeatherSummary` with the eleven documented keys; no failure
escapes as a raised fault (the embedding is total and every branch
produces one of the two shapes). -/
theorem claim_C2 (apiKey : String) (headers : List (String × String)) (outcome : HttpOutcome)
    (city : String) (country : Option String) (units : String) :
    isErrorResult (get_current_weather apiKey headers outcome city country units).result ∨
    isWeatherSummary (get_current_weather apiKey headers outcome city country units).result := by
  rcases result_cases apiKey headers outcome city country units with ⟨m, hm⟩ | ⟨d0, info, hf, hr⟩
  · exact Or.inl ⟨m, hm⟩
  · right
    obtain ⟨name, ctry, desc, temp, feels, tmin, tmax, hum, pres, speed, clouds, hex, hinfo⟩ :=
      formatWeather_ok_shape d0 units info hf
    rw [hr, hinfo]
    rfl

/-- C3: on every successful lookup, `units = "imperial"` makes all four
temperature fields carry the `°F` suffix and the wind-speed field the
`mph` unit, while `units = "metric"` gives `°C` and `m/s`. -/
theorem claim_C3 (apiKey : String) (headers : List (String × String)) (outcome : HttpOutcome)
    (city : String) (country : Option String) (units : String) :
    (units = "imperial" →
      tempsHaveSuffix (get_current_weather apiKey headers outcome city country units).result
        "°F" ∧
      windHasUnit (get_current_weather apiKey headers outcome city country units).result
        "mph") ∧
    (units = "metric" →
      tempsHaveSuffix (get_current_weather apiKey headers outcome city country units).result
        "°C" ∧
      windHasUnit (get_current_weather apiKey headers outcome city country units).result
        "m/s") := by
  constructor
  · rintro rfl
    exact temps_wind_shape apiKey headers outcome city country "imperial"
  · rintro rfl
    exact temps_wind_shape apiKey headers outcome city country "metric"

/-- C10: the `units` value is never validated: every value other than
the exact text `"metric"` takes the imperial branch, so a successful
lookup formats temperatures with `°F` and wind speed with `mph`. -/
theorem claim_C10 (apiKey : String) (headers : List (String × String)) (outcome : HttpOutcome)
    (city : String) (country : Option String) (units : String) (h : units ≠ "metric") :
    tempsHaveSuffix (get_current_weather apiKey headers outcome city country units).result
      "°F" ∧
    windHasUnit (get_current_weather apiKey headers outcome city country units).result "mph" := by
  have hshape := temps_wind_shape apiKey headers outcome city country units
  rw [show unitLetter units = "F" from by unfold unitLetter; rw [if_neg h],
    show windUnitText units = "mph" from by unfold windUnitText; rw [if_neg h]] at hshape
  exact hshape

theorem userinfoOk_nil : userinfoOk [] := by
  intro u hu
  simp at hu

theorem handleResponse_200 (city units : String) (data : Json) (info : List (String × Json))
    (hf : formatWeather data units = Except.ok info) :
    handleResponse city units (HttpOutcome.response 200 (Except.ok data)) = info := by
  simp only [handleResponse]
  rw [if_pos (by omega : 200 ≤ 200 ∧ 200 ≤ 299)]
  simp only [parseAndFormat]
  rw [hf]
  rfl

theorem requests_cases (apiKey : String) (headers : List (String × String))
    (outcome : HttpOutcome) (city : String) (country : Option String) (units : String) :
    (get_current_weather apiKey headers outcome city country units).requests = [] ∨
    (get_current_weather apiKey headers outcome city country units).requests =
      [{ url := WEATHER_BASE_URL ++ "/weather", q := buildLocation city country,
         appid := apiKey, units := units, lang := "zh_cn" }] := by
  unfold get_current_weather
  by_cases ha : apiKey = ""
  · rw [if_pos ha]
    exact Or.inl rfl
  · rw [if_neg ha]
    unfold tryBody
    cases headers.lookup "userinfo" with
    | none => exact Or.inr rfl
    | some u =>
      simp only []
      by_cases hu : u = ""
      · rw [if_pos hu]
        exact Or.inr rfl
      · rw [if_neg hu]
        cases decodeUserinfo u with
        | ok t => exact Or.inr rfl
        | error e => exact Or.inl rfl

/-- C5: given a 200 response whose body is well-formed (all documented
keys present with their documented types), a lookup that reaches the
provider returns a `WeatherSummary` with exactly the eleven documented
keys, each value a non-empty text. -/
theorem claim_C5 (apiKey : String) (headers : List (String × String)) (city : String)
    (country : Option String) (units : String) (data : Json) (h : apiKey ≠ "")
    (hok : userinfoOk headers) (hwf : WellFormedBody data) :
    ((get_current_weather apiKey headers (HttpOutcome.response 200 (Except.ok data)) city country
      units).result.map Prod.fst = weatherKeys) ∧
    (∀ p ∈ (get_current_weather apiKey headers (HttpOutcome.response 200 (Except.ok data)) city
      country units).result, ∃ s, p.2 = Json.str s ∧ s ≠ "") := by
  obtain ⟨name, ctry, desc, t, fl, tn, tx, hum, pres, spd, cld, hex, hname, hctry, hdesc, ht,
    hfl, htn, htx, hhum, hpres, hspd, hcld⟩ := hwf
  have hf : formatWeather data units = Except.ok (summaryList (Json.str name) (Json.str ctry)
      (Json.str desc) (Json.num t) (Json.num fl) (Json.num tn) (Json.num tx) (Json.num hum)
      (Json.num pres) (Json.num spd) (Json.num cld) units) := by
    unfold formatWeather
    rw [hex]
  have hres := result_of_ok apiKey headers (HttpOutcome.response 200 (Except.ok data)) city
    country units h hok
  rw [handleResponse_200 city units data _ hf] at hres
  rw [hres]
  constructor
  · rfl
  · intro p hp
    simp only [summaryList, List.mem_cons, List.not_mem_nil, or_false] at hp
    rcases hp with rfl | rfl | rfl | rfl | rfl | rfl | rfl | rfl | rfl | rfl | rfl
    · exact ⟨name, rfl, hname⟩
    · exact ⟨ctry, rfl, hctry⟩
    · exact ⟨desc, rfl, hdesc⟩
    · exact ⟨pyStr (Json.num t) ++ "°" ++ unitLetter units, rfl,
        str_append_ne_left _ _ (str_append_ne_left _ _ ht)⟩
    · exact ⟨pyStr (Json.num fl) ++ "°" ++ unitLetter units, rfl,
        str_append_ne_left _ _ (str_append_ne_left _ _ hfl)⟩
    · exact ⟨pyStr (Json.num tn) ++ "°" ++ unitLetter units, rfl,
        str_append_ne_left _ _ (str_append_ne_left _ _ htn)⟩
    · exact ⟨pyStr (Json.num tx) ++ "°" ++ unitLetter units, rfl,
        str_append_ne_left _ _ (str_append_ne_left _ _ htx)⟩
    · exact ⟨pyStr (Json.num hum) ++ "%", rfl, str_append_ne_left _ _ hhum⟩
    · exact ⟨pyStr (Json.num pres) ++ " hPa", rfl, str_append_ne_left _ _ hpres⟩
    · exact ⟨pyStr (Json.num spd) ++ " " ++ windUnitText units, rfl,
        str_append_ne_left _ _ (str_append_ne_left _ _ hspd)⟩
    · exact ⟨pyStr (Json.num cld) ++ "%", rfl, str_append_ne_left _ _ hcld⟩

theorem sampleBody_wellFormed : WellFormedBody sampleBody :=
  ⟨"Shanghai", "CN", "晴", "20", "19", "18", "22", "50", "1012", "3", "10", rfl,
    by decide, by decide, by decide, by decide, by decide, by decide, by decide, by decide,
    by decide, by decide, by decide⟩

theorem claim_C5_witness :
    (get_current_weather "k" [] (HttpOutcome.response 200 (Except.ok sampleBody)) "shanghai"
      (some "CN") "metric").result.map Prod.fst = weatherKeys :=
  (claim_C5 "k" [] "shanghai" (some "CN") "metric" sampleBody (by decide) userinfoOk_nil
    sampleBody_wellFormed).1

/-- C6: when the single outbound call yields a non-2xx status, 404
produces the city-not-found error naming the requested city, 401 the
fixed invalid-credential error regardless of body, and every other
status the generic HTTP-failure error carrying the numeric status. -/
theorem claim_C6 (apiKey : String) (headers : List (String × String)) (city : String)
    (country : Option String) (units : String) (status : Nat) (body : Except String Json)
    (h : apiKey ≠ "") (hok : userinfoOk headers) (hs : ¬(200 ≤ status ∧ status ≤ 299)) :
    (status = 404 →
      (get_current_weather apiKey headers (HttpOutcome.response status body) city country
        units).result = [("错误", Json.str ("未找到城市: " ++ city))]) ∧
    (status = 401 →
      (get_current_weather apiKey headers (HttpOutcome.response status body) city country
        units).result = [("错误", Json.str "API密钥无效，请检查 WEATHER_API_KEY 环境变量")]) ∧
    (status ≠ 404 → status ≠ 401 →
      (get_current_weather apiKey headers (HttpOutcome.response status body) city country
        units).result = [("错误", Json.str ("API请求失败: " ++ toString status))]) := by
  have hres := result_of_ok apiKey headers (HttpOutcome.response status body) city country units
    h hok
  rw [hres]
  unfold handleResponse
  simp only []
  rw [if_neg hs]
  refine ⟨?_, ?_, ?_⟩
  · intro h404
    rw [if_pos h404]
  · intro h401
    rw [if_neg (show ¬ status = 404 by subst h401; decide), if_pos h401]
  · intro h404 h401
    rw [if_neg h404, if_neg h401]

theorem claim_C6_witness :
    (get_current_weather "k" [] (HttpOutcome.response 404 (Except.error "nf")) "paris"
      (some "CN") "metric").result = [("错误", Json.str ("未找到城市: " ++ "paris"))] :=
  (claim_C6 "k" [] "paris" (some "CN") "metric" 404 (Except.error "nf") (by decide)
    userinfoOk_nil (by decide)).1 rfl

theorem claim_C3_witness : ∃ s, Json.str "20°F" = Json.str (s ++ "°F") := by
  have h := (claim_C3 "k" [] sampleOutcome "shanghai" (some "CN") "imperial").1 rfl
  exact h.1 "当前温度" (by decide) (Json.str "20°F") rfl

theorem claim_C10_witness : ∃ s, Json.str "3 mph" = Json.str (s ++ " " ++ "mph") := by
  have h := claim_C10 "k" [] sampleOutcome "shanghai" (some "CN") "kelvin" (by decide)
  exact h.2 (Json.str "3 mph") rfl

/-- C4 counterexample: with `country` provided as the empty string, the
location parameter sent to the provider is the bare city, not the
comma-joined text the claim demands for every provided country. -/
theorem claim_C4_counterexample :
    ((get_current_weather "k" [] sampleOutcome "paris" (some "") "metric").requests.map
      HttpRequest.q = ["paris"]) ∧ "paris" ≠ "paris" ++ "," ++ "" := by
  constructor
  · rfl
  · decide

/-- C4 amended: the location parameter equals `city` when `country` is
omitted or empty (Python truthiness treats `""` like `None`), and equals
`"{city},{country}"` when a non-empty country is provided. -/
theorem claim_C4_amended (apiKey : String) (headers : List (String × String))
    (outcome : HttpOutcome) (city : String) (country : Option String) (units : String)
    (req : HttpRequest)
    (hreq : req ∈ (get_current_weather apiKey headers outcome city country units).requests) :
    ((country = none ∨ country = some "") → req.q = city) ∧
    (∀ c, country = some c → c ≠ "" → req.q = city ++ "," ++ c) := by
  rcases requests_cases apiKey headers outcome city country units with hr | hr
  · rw [hr] at hreq
    exact absurd hreq (List.not_mem_nil req)
  · rw [hr, List.mem_singleton] at hreq
    subst hreq
    constructor
    · rintro (rfl | rfl)
      · rfl
      · rfl
    · rintro c rfl hc
      show buildLocation city (some c) = city ++ "," ++ c
      simp only [buildLocation]
      rw [if_neg hc]

theorem claim_C4_witness :
    (get_current_weather "k" [] sampleOutcome "london" (some "UK") "metric").requests.map
      HttpRequest.q = ["london" ++ "," ++ "UK"] := by
  have h := (claim_C4_amended "k" [] sampleOutcome "london" (some "UK") "metric"
    { url := WEATHER_BASE_URL ++ "/weather", q := buildLocation "london" (some "UK"),
      appid := "k", units := "metric", lang := "zh_cn" } (List.Mem.head _)).2 "UK" rfl
    (by decide)
  rw [requests_of_ok "k" [] sampleOutcome "london" (some "UK") "metric" (by decide)
    userinfoOk_nil, List.map_cons, List.map_nil, h]

/-- C7 counterexample: the empty text encodes to the empty header value,
which Python truthiness treats as absent, so the decode step never runs
and nothing is recovered. -/
theorem claim_C7_counterexample :
    b64urlEncodeStr "" = "" ∧
    (get_current_weather "k" [("userinfo", b64urlEncodeStr "")] sampleOutcome "beijing"
      (some "CN") "metric").decodedUserinfo ≠ some "" := by
  refine ⟨rfl, ?_⟩
  intro h
  exact Option.noConfusion (show (none : Option String) = some "" from h)

/-- C7 amended: for every non-empty text `t`, a lookup with a configured
credential whose `userinfo` header carries the base64url encoding of `t`
decodes exactly `t` inside the call. -/
theorem claim_C7_amended (t apiKey city units : String) (country : Option String)
    (outcome : HttpOutcome) (headers : List (String × String)) (ht : t ≠ "") (ha : apiKey ≠ "")
    (hh : headers.lookup "userinfo" = some (b64urlEncodeStr t)) :
    (get_current_weather apiKey headers outcome city country units).decodedUserinfo = some t := by
  unfold get_current_weather
  rw [if_neg ha]
  unfold tryBody
  rw [hh]
  simp only []
  rw [if_neg (b64urlEncodeStr_ne_empty t ht), decodeUserinfo_encode]
  rfl

theorem claim_C7_witness :
    (get_current_weather "k" [("userinfo", b64urlEncodeStr "alice")] sampleOutcome "beijing"
      (some "CN") "metric").decodedUserinfo = some "alice" :=
  claim_C7_amended "alice" "k" "beijing" "metric" (some "CN") sampleOutcome
    [("userinfo", b64urlEncodeStr "alice")] (by decide) (by decide) rfl

/-- C8 counterexample: a `userinfo` header that fails base64url decoding
changes the returned value (generic error instead of the weather
summary), so the result is not independent of the header. -/
theorem claim_C8_counterexample :
    (get_current_weather "k" [("userinfo", "A")] sampleOutcome "shanghai" (some "CN")
      "metric").result ≠
    (get_current_weather "k" [] sampleOutcome "shanghai" (some "CN") "metric").result := by
  intro h
  exact absurd (congrArg List.length h) (by decide)

/-- C8 amended: whenever the `userinfo` header (if present and
non-empty) decodes successfully, the returned mapping is the same for
any two header collections; the identity value feeds only the
observability channel. -/
theorem claim_C8_amended (apiKey city units : String) (country : Option String)
    (outcome : HttpOutcome) (h1 h2 : List (String × String)) (hok1 : userinfoOk h1)
    (hok2 : userinfoOk h2) :
    (get_current_weather apiKey h1 outcome city country units).result =
      (get_current_weather apiKey h2 outcome city country units).result := by
  by_cases ha : apiKey = ""
  · subst ha
    rfl
  · rw [result_of_ok apiKey h1 outcome city country units ha hok1,
      result_of_ok apiKey h2 outcome city country units ha hok2]

theorem claim_C8_witness :
    (get_current_weather "k" [("userinfo", b64urlEncodeStr "alice")] sampleOutcome "shanghai"
      (some "CN") "metric").result =
      (get_current_weather "k" [] sampleOutcome "shanghai" (some "CN") "metric").result :=
  claim_C8_amended "k" "shanghai" "metric" (some "CN") sampleOutcome
    [("userinfo", b64urlEncodeStr "alice")] [] (by
      intro u hu hne
      have heq : b64urlEncodeStr "alice" = u :=
        Option.some_inj.mp (show some (b64urlEncodeStr "alice") = some u from hu)
      rw [← heq]
      exact ⟨"alice", decodeUserinfo_encode "alice"⟩) userinfoOk_nil

/-- C9 counterexample: with a configured credential but a `userinfo`
header that fails to decode, the call aborts before the network step
and performs zero outbound requests, not one. -/
theorem claim_C9_counterexample :
    ("k" : String) ≠ "" ∧
    (get_current_weather "k" [("userinfo", "A")] sampleOutcome "beijing" (some "CN")
      "metric").requests.length = 0 := by
  constructor
  · decide
  · rfl

/-- C9 amended: when a credential is configured and the `userinfo`
header (if present and non-empty) decodes successfully, the lookup
performs exactly one outbound request, whatever the outcome. -/
theorem claim_C9_amended (apiKey : String) (headers : List (String × String))
    (outcome : HttpOutcome) (city : String) (country : Option String) (units : String)
    (h : apiKey ≠ "") (hok : userinfoOk headers) :
    (get_current_weather apiKey headers outcome city country units).requests.length = 1 := by
  rw [requests_of_ok apiKey headers outcome city country units h hok]
  rfl

theorem claim_C9_witness :
    (get_current_weather "k" [] sampleOutcome "beijing" (some "CN") "metric").requests.length
      = 1 :=
  claim_C9_amended "k" [] sampleOutcome "beijing" (some "CN") "metric" (by decide) userinfoOk_nil
